import Mathlib

/-!
Verification development for the PyAirbyte ("airbyte-lib") sources: a shallow
embedding, in Lean 4, of the code under scrutiny in
`airbyte/_util/api_util.py`, `airbyte/caches/bigquery.py`,
`airbyte/_processors/file/jsonl.py` and `airbyte/_writers/base.py`,
together with theorems settling the frozen claims about that code.

Conventions of the embedding:
* Python functions that raise exceptions are modelled as functions into
  `Except AirbyteApiError _` (resp. a product with a call log where the claim
  is about whether an HTTP call happens at all).
* The vendor SDK (`airbyte_api`) response objects are modelled as structures
  holding exactly the fields the embedded code reads, with a field that can be
  `None`/falsy modelled as an `Option`.
* Network traffic is modelled by passing the server response (or a response
  function) as an argument: the embedded function is the response-handling
  code of the Python function, which is where all of its logic lives.
-/

namespace PyAirbyte

/-- The exceptions raised by the embedded code.  `missingResource`,
`multipleResources`, `airbyteError`, `connectorCheckFailed` and
`airbyteLibInternalError` model the exception classes of
`airbyte.exceptions`; `notImplementedError`, `typeError`, `keyError` and
`httpError` model the Python built-in exceptions (`requests.HTTPError` for
the last) that the code can raise. -/
inductive AirbyteApiError where
  | missingResource (resource_type : String)
  | multipleResources (resource_type : String)
  | airbyteError
  | connectorCheckFailed (message : Option String)
  | airbyteLibInternalError
  | notImplementedError
  | typeError
  | keyError
  | httpError
  deriving Repr, DecidableEq

/-- `status_ok` from `api_util.py`: `status_code >= 200 and status_code < 300`. -/
def status_ok (status_code : Nat) : Bool :=
  200 ≤ status_code && status_code < 300

/-- Payload of a workspace (`models.WorkspaceResponse`); opaque to the code. -/
structure WorkspaceResponse where
  workspace_id : String
  deriving Repr, DecidableEq

/-- Payload of a connection (`api.ConnectionResponse`); the code reads `.name`. -/
structure ConnectionResponse where
  connection_id : String
  name : String
  deriving Repr, DecidableEq

/-- Payload of a source (`api.SourceResponse`); opaque to the code. -/
structure SourceResponse where
  source_id : String
  deriving Repr, DecidableEq

/-- Payload of a job (`api.JobResponse`); opaque to the code. -/
structure JobResponse where
  job_id : String
  deriving Repr, DecidableEq

/-- The SDK response for `workspaces.get_workspace`: the code reads
`status_code` and the `workspace_response` field (falsy = `none`). -/
structure GetWorkspaceResponse where
  status_code : Nat
  workspace_response : Option WorkspaceResponse
  deriving Repr, DecidableEq

/-- The SDK response for `connections.get_connection`. -/
structure GetConnectionResponse where
  status_code : Nat
  connection_response : Option ConnectionResponse
  deriving Repr, DecidableEq

/-- The SDK response for `sources.get_source`.  The field the code reads on it
is spelled `connection_response` in the source (`api_util.py` lines 323-324);
we keep that spelling and let it carry the source payload. -/
structure GetSourceResponse where
  status_code : Nat
  connection_response : Option SourceResponse
  deriving Repr, DecidableEq

/-- The SDK response for `jobs.get_job`. -/
structure GetJobResponse where
  status_code : Nat
  job_response : Option JobResponse
  deriving Repr, DecidableEq

/-- `get_workspace` (response handling): return the payload when the status is
OK and the field is truthy, otherwise raise `AirbyteMissingResourceError`. -/
def get_workspace (response : GetWorkspaceResponse) :
    Except AirbyteApiError WorkspaceResponse :=
  match status_ok response.status_code, response.workspace_response with
  | true, some w => .ok w
  | _, _ => .error (.missingResource "workspace")

/-- `get_connection` (response handling). -/
def get_connection (response : GetConnectionResponse) :
    Except AirbyteApiError ConnectionResponse :=
  match status_ok response.status_code, response.connection_response with
  | true, some c => .ok c
  | _, _ => .error (.missingResource "connection")

/-- `get_source` (response handling); reads `response.connection_response`. -/
def get_source (response : GetSourceResponse) :
    Except AirbyteApiError SourceResponse :=
  match status_ok response.status_code, response.connection_response with
  | true, some s => .ok s
  | _, _ => .error (.missingResource "source")

/-- `get_job_info` (response handling). -/
def get_job_info (response : GetJobResponse) :
    Except AirbyteApiError JobResponse :=
  match status_ok response.status_code, response.job_response with
  | true, some j => .ok j
  | _, _ => .error (.missingResource "job")

/-- A typed destination configuration.  `raw` is the untyped configuration the
SDK put on the response; the other constructors model the typed models built
by `models.DestinationSnowflake.from_dict` and friends, each carrying the raw
JSON configuration dict they were parsed from (of abstract type `RawCfg`). -/
inductive DestinationConfiguration (RawCfg : Type) where
  | raw (cfg : RawCfg)
  | snowflake (cfg : RawCfg)
  | bigquery (cfg : RawCfg)
  | postgres (cfg : RawCfg)
  | duckdb (cfg : RawCfg)
  deriving Repr, DecidableEq

/-- Payload of a destination (`api.DestinationResponse`): the code rewrites
its `configuration` field and returns every other field untouched. -/
structure DestinationResponse (RawCfg : Type) where
  destination_id : String
  name : String
  workspace_id : String
  destination_type : String
  configuration : DestinationConfiguration RawCfg
  deriving Repr, DecidableEq

/-- The JSON body of the raw HTTP response
(`json.loads(response.raw_response.text)`): the code reads
`raw_response["configuration"]` (indexing, assumed present in a well-formed
response) and `raw_response.get("destinationType")` (may be absent). -/
structure RawDestinationJson (RawCfg : Type) where
  configuration : RawCfg
  destinationType : Option String
  deriving Repr, DecidableEq

/-- The SDK response for `destinations.get_destination`.  On the OK path the
code reads `response.destination_response` without a truthiness check, so the
field is modelled as always present. -/
structure GetDestinationResponse (RawCfg : Type) where
  status_code : Nat
  destination_response : DestinationResponse RawCfg
  raw_response : RawDestinationJson RawCfg
  deriving Repr, DecidableEq

/-- `get_destination` (response handling, `api_util.py` lines 388-429): on an
OK status, parse the raw JSON and, for each of the four recognized destination
types, replace the `configuration` field of the destination response with the
typed model parsed from the raw configuration; the four `if` statements are
sequential (not `elif`) in the source and are modelled in the same order. -/
def get_destination {RawCfg : Type} (response : GetDestinationResponse RawCfg) :
    Except AirbyteApiError (DestinationResponse RawCfg) :=
  if status_ok response.status_code then
    let raw_configuration : RawCfg := response.raw_response.configuration
    let destination_type : Option String := response.raw_response.destinationType
    let r0 := response.destination_response
    let r1 := if destination_type == some "snowflake" then
        { r0 with configuration := .snowflake raw_configuration } else r0
    let r2 := if destination_type == some "bigquery" then
        { r1 with configuration := .bigquery raw_configuration } else r1
    let r3 := if destination_type == some "postgres" then
        { r2 with configuration := .postgres raw_configuration } else r2
    let r4 := if destination_type == some "duckdb" then
        { r3 with configuration := .duckdb raw_configuration } else r3
    .ok r4
  else
    .error (.missingResource "destination")

/-- The `name_filter` argument of `list_connections`: `None`, a string, or a
callable (`str | Callable[[str], bool] | None` in the source). -/
inductive NameFilter where
  | nofilter
  | str (s : String)
  | func (f : String → Bool)

/-- The predicate `list_connections` actually applies to each connection name.
For `nofilter` the source short-circuits (`name_filter is None or ...`) and
keeps every connection.  For a callable it calls it.  For a string the source
(lines 119-123) rebinds the name `name_filter` to an inner function whose body
is `return name_filter in name`; inside that body, `name_filter` is a closure
variable of the enclosing scope, and by the time the function is called that
variable holds the function object itself (the `def` statement rebound it), so
evaluating `name_filter in name` applies `str.__contains__` to a function and
raises `TypeError`.  The string is never consulted. -/
def applied_name_filter : NameFilter → String → Except AirbyteApiError Bool
  | .nofilter, _ => .ok true
  | .func f, name => .ok (f name)
  | .str _, _ => .error .typeError

/-- Filter a list through a predicate that can raise, stopping at the first
raised exception (the order in which the generator examines connections). -/
def filterRaising {α : Type} (p : α → Except AirbyteApiError Bool) :
    List α → Except AirbyteApiError (List α)
  | [] => .ok []
  | a :: as =>
    match p a with
    | .error e => .error e
    | .ok b =>
      match filterRaising p as with
      | .error e => .error e
      | .ok rest => .ok (if b then a :: rest else rest)

/-- Map a fallible function over a list, propagating the first raised
exception (the order in which a Python loop would hit it). -/
def mapExcept {α β : Type} (f : α → Except AirbyteApiError β) :
    List α → Except AirbyteApiError (List β)
  | [] => .ok []
  | a :: as =>
    match f a with
    | .error e => .error e
    | .ok b =>
      match mapExcept f as with
      | .error e => .error e
      | .ok bs => .ok (b :: bs)

/-- The paging loop of `list_connections`: each iteration requests a page of
`limit = 50` connections at the current offset (modelled as
`remaining.take 50` of the connections the server still has beyond the
offset), stops on an empty page, otherwise yields the connections passing the
filter and advances the offset by 50.  Server responses are modelled as
successful; the non-OK branch (which raises `AirbyteError`) is not exercised
by the claims. -/
def list_connections_loop (p : String → Except AirbyteApiError Bool)
    (remaining : List ConnectionResponse) :
    Except AirbyteApiError (List ConnectionResponse) :=
  if h : remaining.isEmpty then
    .ok []
  else
    match filterRaising (fun c => p c.name) (remaining.take 50) with
    | .error e => .error e
    | .ok kept =>
      match list_connections_loop p (remaining.drop 50) with
      | .error e => .error e
      | .ok rest => .ok (kept ++ rest)
  termination_by remaining.length
  decreasing_by
    simp only [List.length_drop]
    have hne : remaining ≠ [] := by simpa [List.isEmpty_iff] using h
    have hpos : 0 < remaining.length := List.length_pos.mpr hne
    omega

/-- `list_connections` (`api_util.py` lines 99-152) against a server holding
`server_connections` for the workspace, paged 50 at a time. -/
def list_connections (name_filter : NameFilter)
    (server_connections : List ConnectionResponse) :
    Except AirbyteApiError (List ConnectionResponse) :=
  list_connections_loop (applied_name_filter name_filter) server_connections

/-- `get_connection_by_name` (`api_util.py` lines 509-540): list all
connections of the workspace (no name filter), keep those whose name equals
`connection_name` exactly, and return the match when it is unique; raise
`AirbyteMissingResourceError` on zero matches and
`AirbyteMultipleResourcesError` on several. -/
def get_connection_by_name (server_connections : List ConnectionResponse)
    (connection_name : String) : Except AirbyteApiError ConnectionResponse :=
  match list_connections .nofilter server_connections with
  | .error e => .error e
  | .ok connections =>
    match connections.filter (fun c => c.name == connection_name) with
    | [] => .error (.missingResource "connection")
    | [c] => .ok c
    | _ :: _ :: _ => .error (.multipleResources "connection")

/-- `CLOUD_API_ROOT` from `api_util.py`. -/
def CLOUD_API_ROOT : String := "https://api.airbyte.com/v1"

/-- `LEGACY_API_ROOT` from `api_util.py`. -/
def LEGACY_API_ROOT : String := "https://cloud.airbyte.com/api/v1"

/-- `_transform_legacy_api_root`: map the Cloud API root to the legacy Config
API root, and raise `NotImplementedError` for any other root. -/
def transform_legacy_api_root (api_root : String) :
    Except AirbyteApiError String :=
  if api_root == CLOUD_API_ROOT then
    .ok LEGACY_API_ROOT
  else
    .error .notImplementedError

/-- The JSON body of the Config API check response; the code reads
`response_json.get("status", None)` and `response_json.get("message", None)`. -/
structure CheckResponseJson where
  status : Option String
  message : Option String
  deriving Repr, DecidableEq

/-- An HTTP response to the check POST. -/
structure HttpResponse where
  status_code : Nat
  json : CheckResponseJson
  deriving Repr, DecidableEq

/-- The POST request `check_connector_config` sends: the URL
`f"{legacy_api_root}/{connector_type.value}s/check_connection"` and the JSON
body `{f"{connector_type.value}Id": connector_id}`. -/
structure HttpPostRequest where
  url : String
  body_field : String
  body_value : String
  deriving Repr, DecidableEq

/-- `requests.Response.raise_for_status`: raises for 4xx and 5xx codes. -/
def raise_for_status (status_code : Nat) : Bool :=
  (400 ≤ status_code && status_code < 600)

/-- The request `check_connector_config` builds: the URL and JSON body of its
POST to the legacy Config API. -/
def check_request (legacy_api_root : String) (connector_id : String)
    (connector_type : String) : HttpPostRequest :=
  { url := legacy_api_root ++ "/" ++ connector_type ++ "s/check_connection"
    body_field := connector_type ++ "Id"
    body_value := connector_id }

/-- `check_connector_config` (`api_util.py` lines 583-631) against a server
modelled as a function from the POST request to its response.  Returns the
result together with the list of HTTP calls performed, so that raising before
any call is observable.  `connector_type` is the string value of the
`ConnectorTypeEnum` member (`"source"` or `"destination"`). -/
def check_connector_config (connector_id : String) (connector_type : String)
    (api_root : String) (server : HttpPostRequest → HttpResponse) :
    Except AirbyteApiError Unit × List HttpPostRequest :=
  match transform_legacy_api_root api_root with
  | .error e => (.error e, [])
  | .ok legacy_api_root =>
    let request : HttpPostRequest :=
      check_request legacy_api_root connector_id connector_type
    let response := server request
    if raise_for_status response.status_code then
      (.error .httpError, [request])
    else if response.json.status == some "succeeded" then
      (.ok (), [request])
    else
      (.error (.connectorCheckFailed response.json.message), [request])

/-- Modelled from the spec: the `WriteStrategy` enum of `airbyte.strategies`
(only imported under `TYPE_CHECKING` in `airbyte/_writers/base.py`; the module
itself is not among the sources).  Per the spec, a write strategy is the
"policy governing how staged records are merged into a target table
(append-only, full replace, or upsert-by-key)". -/
inductive WriteStrategy where
  | append
  | replace
  | merge
  deriving Repr, DecidableEq

end PyAirbyte

namespace PyAirbyte.Jsonl

/-- `JsonlWriter.default_cache_file_suffix` from
`airbyte/_processors/file/jsonl.py`: batch files are gzip-compressed
`.jsonl.gz` streams. -/
def default_cache_file_suffix : String := ".jsonl.gz"

/-- The newline byte appended after each serialized record (`b"\n"`). -/
def newlineByte : Nat := 10

/-- `JsonlWriter._write_record_dict`: write
`orjson.dumps(record_dict) + b"\n"` to the open batch file.  The serializer
`dumps` (orjson) is a parameter; the open gzip file is modelled as the byte
sequence written to it so far (the bytes fed to the compressor). -/
def write_record_dict {R : Type} (dumps : R → List Nat)
    (open_file_writer : List Nat) (record_dict : R) : List Nat :=
  open_file_writer ++ (dumps record_dict ++ [newlineByte])

/-- Writing a stream of records to a batch file, one
`_write_record_dict` call per record, in order. -/
def write_records {R : Type} (dumps : R → List Nat)
    (open_file_writer : List Nat) (records : List R) : List Nat :=
  records.foldl (write_record_dict dumps) open_file_writer

end PyAirbyte.Jsonl

namespace PyAirbyte.BigQuery

/-- A SQLAlchemy column type as produced by the generic converter.  The
constructors cover the generic types the base `SQLTypeConverter` can yield;
`isVarchar`/`isBigint` model `isinstance(sql_type, sqlalchemy.types.VARCHAR)`
and `isinstance(sql_type, sqlalchemy.types.BIGINT)`, and `className` models
`sql_type.__class__.__name__`. -/
inductive SqlType where
  | varchar (length : Option Nat)
  | bigint
  | boolean
  | decimal
  | timestampWithTz
  | timestampWithoutTz
  | date
  | time
  | jsonb
  deriving Repr, DecidableEq

/-- `isinstance(sql_type, sqlalchemy.types.VARCHAR)`. -/
def SqlType.isVarchar : SqlType → Bool
  | .varchar _ => true
  | _ => false

/-- `isinstance(sql_type, sqlalchemy.types.BIGINT)`. -/
def SqlType.isBigint : SqlType → Bool
  | .bigint => true
  | _ => false

/-- `sql_type.__class__.__name__` for each modelled type. -/
def SqlType.className : SqlType → String
  | .varchar _ => "VARCHAR"
  | .bigint => "BIGINT"
  | .boolean => "BOOLEAN"
  | .decimal => "DECIMAL"
  | .timestampWithTz => "TIMESTAMP"
  | .timestampWithoutTz => "DATETIME"
  | .date => "DATE"
  | .time => "TIME"
  | .jsonb => "JSON"

/-- `BigQueryConverter.to_sql_type` (`bigquery.py` lines 59-76).  The parent
conversion `super().to_sql_type` lives in `airbyte/types.py`, which is not
among the sources; it is passed in as the function `base` from JSON-schema
property definitions (abstract type `PropDef`) to generic SQL types.  The
method first applies the parent conversion, then replaces a `VARCHAR` result
by the string `"String"`, a `BIGINT` result by `"INT64"`, and otherwise
returns the class name of the generic type. -/
def BigQueryConverter.to_sql_type {PropDef : Type} (base : PropDef → SqlType)
    (json_schema_property_def : PropDef) : String :=
  let sql_type := base json_schema_property_def
  if sql_type.isVarchar then "String"
  else if sql_type.isBigint then "INT64"
  else sql_type.className

/-- A pandas dataframe, column-oriented: a list of named columns of values of
abstract type `V` (the values read from a Parquet batch file;
`pf.read().to_pandas()` makes one column per field of the file schema). -/
structure DataFrame (V : Type) where
  cols : List (String × List V)
  deriving Repr, DecidableEq

/-- Column lookup, `dataframe[name]` on the reading side: `none` models the
`KeyError` pandas raises for a missing column. -/
def DataFrame.getCol {V : Type} (df : DataFrame V) (name : String) :
    Option (List V) :=
  (df.cols.find? (fun c => c.1 == name)).map (fun c => c.2)

/-- Column assignment, `dataframe[name] = values`: replace the column when
present, append it otherwise (pandas creates absent columns on assignment). -/
def DataFrame.setCol {V : Type} (df : DataFrame V) (name : String)
    (values : List V) : DataFrame V :=
  if df.cols.any (fun c => c.1 == name) then
    ⟨df.cols.map (fun c => if c.1 == name then (name, values) else c)⟩
  else
    ⟨df.cols ++ [(name, values)]⟩

/-- The timestamp coercion block of `_write_files_to_new_table`
(`bigquery.py` lines 135-138): `dataframe["created_at"] =
pd.to_datetime(dataframe["created_at"])` and likewise for `"updated_at"`.
`pd.to_datetime` applied to a column maps the abstract conversion `to_dt`
over its values; reading a column that the dataframe does not have raises
`KeyError`.  The column names are hard-coded in the source (its comment calls
this a change "to test specically with faker source"). -/
def convertTimestampCols {V : Type} (to_dt : V → V) (dataframe : DataFrame V) :
    Except AirbyteApiError (DataFrame V) :=
  match dataframe.getCol "created_at" with
  | none => .error .keyError
  | some created =>
    let df1 := dataframe.setCol "created_at" (created.map to_dt)
    match df1.getCol "updated_at" with
    | none => .error .keyError
    | some updated =>
      .ok (df1.setCol "updated_at" (updated.map to_dt))

/-- The BigQuery dataset state: each table name is mapped to the list of
dataframes that have been loaded into it, in load order (the rows of the
table are the concatenation of the rows of those dataframes). -/
structure BigQueryState (V : Type) where
  tables : List (String × List (DataFrame V))
  deriving Repr, DecidableEq

/-- Content of a table, by name. -/
def BigQueryState.getTable {V : Type} (st : BigQueryState V)
    (table_name : String) : Option (List (DataFrame V)) :=
  (st.tables.find? (fun t => t.1 == table_name)).map (fun t => t.2)

/-- `SQLCacheBase._table_exists` (declared in `airbyte/caches/base.py`, not
among the sources).  Modelled from the spec: the staging table either exists
in the dataset or it does not. -/
def BigQueryState.table_exists {V : Type} (st : BigQueryState V)
    (table_name : String) : Bool :=
  st.tables.any (fun t => t.1 == table_name)

/-- Set a table's content in an association list: overwrite the first entry
with the given name, or append a new entry when none exists. -/
def setTableAux {V : Type} (table_name : String) (content : List (DataFrame V)) :
    List (String × List (DataFrame V)) → List (String × List (DataFrame V))
  | [] => [(table_name, content)]
  | t :: ts =>
    if t.1 == table_name then (table_name, content) :: ts
    else t :: setTableAux table_name content ts

/-- Set (insert or overwrite) a table's content. -/
def BigQueryState.setTable {V : Type} (st : BigQueryState V)
    (table_name : String) (content : List (DataFrame V)) : BigQueryState V :=
  ⟨setTableAux table_name content st.tables⟩

/-- The staging table name built from the stream name and batch id.  Modelled
from the spec: `_create_table_for_loading` (in `airbyte/caches/base.py`, not
among the sources) names the staging table from the two. -/
def temp_table_name (stream_name : String) (batch_id : String) : String :=
  stream_name ++ "_" ++ batch_id

/-- `SQLCacheBase._create_table_for_loading` (not among the sources).
Modelled from the spec: create a new, empty staging table named from the
stream name and batch id, and return its name. -/
def create_table_for_loading {V : Type} (st : BigQueryState V)
    (stream_name : String) (batch_id : String) : String × BigQueryState V :=
  let name := temp_table_name stream_name batch_id
  (name, st.setTable name [])

/-- `pandas_gbq.to_gbq` with `if_exists="append"`: append the dataframe to
the destination table, creating the table implicitly when it does not exist.
The source addresses the table as `f"airbyte_raw.{temp_table_name}"` inside
the project `dataline-integration-testing`; the model identifies tables by
their staging-table name, the dataset and project qualifiers being the same
fixed strings on every call. -/
def to_gbq {V : Type} (st : BigQueryState V) (destination_table : String)
    (dataframe : DataFrame V) : BigQueryState V :=
  match st.getTable destination_table with
  | some content => st.setTable destination_table (content ++ [dataframe])
  | none => st.setTable destination_table [dataframe]

/-- The per-file loop body of `BigQuerySqlProcessor._write_files_to_new_table`
(`bigquery.py` lines 119-149): read the Parquet file into a dataframe (the
file is modelled as the dataframe it reads to), raise
`AirbyteLibInternalError` when the staging table does not exist (so that
`pandas_gbq` can never auto-create it), coerce the hard-coded timestamp
columns, and append the dataframe to the staging table. -/
def load_file_to_table {V : Type} (to_dt : V → V) (st : BigQueryState V)
    (table_name : String) (file : DataFrame V) :
    Except AirbyteApiError (BigQueryState V) :=
  let dataframe := file
  if !(st.table_exists table_name) then
    .error .airbyteLibInternalError
  else
    match convertTimestampCols to_dt dataframe with
    | .error e => .error e
    | .ok converted => .ok (to_gbq st table_name converted)

/-- The `for file_path in files` loop of `_write_files_to_new_table`. -/
def load_files_loop {V : Type} (to_dt : V → V) (st : BigQueryState V)
    (table_name : String) : List (DataFrame V) →
    Except AirbyteApiError (BigQueryState V)
  | [] => .ok st
  | file :: rest =>
    match load_file_to_table to_dt st table_name file with
    | .error e => .error e
    | .ok st1 => load_files_loop to_dt st1 table_name rest

/-- `BigQuerySqlProcessor._write_files_to_new_table` (`bigquery.py` lines
107-150): create the staging table for the stream and batch, load each file
into it in list order, and return the staging table's name (with the final
dataset state). -/
def write_files_to_new_table {V : Type} (to_dt : V → V) (st : BigQueryState V)
    (files : List (DataFrame V)) (stream_name : String) (batch_id : String) :
    Except AirbyteApiError (String × BigQueryState V) :=
  let created := create_table_for_loading st stream_name batch_id
  match load_files_loop to_dt created.2 created.1 files with
  | .error e => .error e
  | .ok st2 => .ok (created.1, st2)

end PyAirbyte.BigQuery

namespace PyAirbyte

/-! Helper lemmas about the BigQuery dataset state. -/

/-- Looking a table up right after setting it yields the new content. -/
theorem BigQuery.getTable_setTable_self {V : Type} (st : BigQuery.BigQueryState V)
    (n : String) (content : List (BigQuery.DataFrame V)) :
    (st.setTable n content).getTable n = some content := by
  obtain ⟨ts⟩ := st
  simp only [BigQuery.BigQueryState.setTable, BigQuery.BigQueryState.getTable]
  induction ts with
  | nil => simp [BigQuery.setTableAux]
  | cons t ts ih =>
    by_cases h : t.1 == n
    · simp [BigQuery.setTableAux, h, List.find?]
    · simp only [BigQuery.setTableAux, h, if_neg, Bool.false_eq_true, ite_false]
      simpa [List.find?, h] using ih

/-- A table with known content exists. -/
theorem BigQuery.table_exists_of_getTable {V : Type} (st : BigQuery.BigQueryState V)
    (n : String) (content : List (BigQuery.DataFrame V))
    (h : st.getTable n = some content) : st.table_exists n = true := by
  obtain ⟨ts⟩ := st
  simp only [BigQuery.BigQueryState.getTable] at h
  cases hfind : ts.find? (fun t => t.1 == n) with
  | none => rw [hfind] at h; simp at h
  | some t =>
    have hmem := List.mem_of_find?_eq_some hfind
    have hp := List.find?_some hfind
    simp only [BigQuery.BigQueryState.table_exists, List.any_eq_true]
    exact ⟨t, hmem, hp⟩

/-- Loading one file into an existing table appends its converted dataframe. -/
theorem BigQuery.load_file_to_table_ok {V : Type} (to_dt : V → V)
    (st : BigQuery.BigQueryState V) (n : String) (file df : BigQuery.DataFrame V)
    (acc : List (BigQuery.DataFrame V))
    (htab : st.getTable n = some acc)
    (hconv : BigQuery.convertTimestampCols to_dt file = .ok df) :
    BigQuery.load_file_to_table to_dt st n file = .ok (st.setTable n (acc ++ [df])) := by
  have hex : st.table_exists n = true := BigQuery.table_exists_of_getTable st n acc htab
  simp [BigQuery.load_file_to_table, hex, hconv, BigQuery.to_gbq, htab]

/-- The load loop appends every file's converted dataframe, in list order, to
the staging table's existing content. -/
theorem BigQuery.load_files_loop_spec {V : Type} (to_dt : V → V) (n : String) :
    ∀ (files dfs : List (BigQuery.DataFrame V)) (st : BigQuery.BigQueryState V)
      (acc : List (BigQuery.DataFrame V)),
      st.getTable n = some acc →
      mapExcept (BigQuery.convertTimestampCols to_dt) files = .ok dfs →
      ∃ st2, BigQuery.load_files_loop to_dt st n files = .ok st2 ∧
        st2.getTable n = some (acc ++ dfs) := by
  intro files
  induction files with
  | nil =>
    intro dfs st acc htab hconv
    simp only [mapExcept] at hconv
    cases hconv
    exact ⟨st, by simp [BigQuery.load_files_loop], by simpa using htab⟩
  | cons f rest ih =>
    intro dfs st acc htab hconv
    simp only [mapExcept] at hconv
    cases hf : BigQuery.convertTimestampCols to_dt f with
    | error e => simp [hf] at hconv
    | ok df =>
      cases hrest : mapExcept (BigQuery.convertTimestampCols to_dt) rest with
      | error e => simp [hf, hrest] at hconv
      | ok dfs' =>
        have hdfs : dfs = df :: dfs' := by
          rw [hf, hrest] at hconv
          cases hconv
          rfl
        subst hdfs
        have hload := BigQuery.load_file_to_table_ok to_dt st n f df acc htab hf
        have htab2 : (st.setTable n (acc ++ [df])).getTable n = some (acc ++ [df]) :=
          BigQuery.getTable_setTable_self st n (acc ++ [df])
        obtain ⟨st2, hloop, hcontent⟩ :=
          ih dfs' (st.setTable n (acc ++ [df])) (acc ++ [df]) htab2 hrest
        refine ⟨st2, ?_, ?_⟩
        · simp [BigQuery.load_files_loop, hload, hloop]
        · simpa [List.append_assoc] using hcontent

/-! Claim theorems. -/

/-- C1 (amended): for every non-empty list of Parquet batch files each of
whose schemas contains the hard-coded `created_at` and `updated_at` columns,
`BigQuerySqlProcessor._write_files_to_new_table` first creates an empty
staging table named from the stream name and batch id, then appends each
file's records (with those two columns coerced by `pd.to_datetime`) into that
same staging table in list order, and returns the staging table's name. -/
theorem write_files_to_new_table_spec {V : Type} (to_dt : V → V)
    (st : BigQuery.BigQueryState V) (files : List (BigQuery.DataFrame V))
    (converted_files : List (BigQuery.DataFrame V))
    (stream_name batch_id : String)
    (hne : files ≠ [])
    (hconv : mapExcept (BigQuery.convertTimestampCols to_dt) files = .ok converted_files) :
    (BigQuery.create_table_for_loading st stream_name batch_id).1 =
        BigQuery.temp_table_name stream_name batch_id ∧
    (BigQuery.create_table_for_loading st stream_name batch_id).2.getTable
        (BigQuery.temp_table_name stream_name batch_id) = some [] ∧
    ∃ st2,
      BigQuery.write_files_to_new_table to_dt st files stream_name batch_id =
          .ok (BigQuery.temp_table_name stream_name batch_id, st2) ∧
      st2.getTable (BigQuery.temp_table_name stream_name batch_id) =
          some converted_files := by
  clear hne
  refine ⟨rfl, ?_, ?_⟩
  · exact BigQuery.getTable_setTable_self st _ []
  · have hcreated :
        (BigQuery.create_table_for_loading st stream_name batch_id).2.getTable
          (BigQuery.temp_table_name stream_name batch_id) = some [] :=
      BigQuery.getTable_setTable_self st _ []
    obtain ⟨st2, hloop, hcontent⟩ :=
      BigQuery.load_files_loop_spec to_dt
        (BigQuery.temp_table_name stream_name batch_id) files converted_files
        (BigQuery.create_table_for_loading st stream_name batch_id).2 []
        hcreated hconv
    refine ⟨st2, ?_, by simpa using hcontent⟩
    simp [BigQuery.write_files_to_new_table, BigQuery.create_table_for_loading] at hloop ⊢
    simp [hloop]

/-- Witness for C1: a concrete run with one file holding both timestamp
columns ends with the staging table containing exactly that file's frame. -/
theorem write_files_to_new_table_spec_witness :
    ∃ st2,
      BigQuery.write_files_to_new_table (fun v : Nat => v) ⟨[]⟩
          [⟨[("created_at", [1]), ("updated_at", [2])]⟩] "users" "batch1" =
          .ok (BigQuery.temp_table_name "users" "batch1", st2) ∧
      st2.getTable (BigQuery.temp_table_name "users" "batch1") =
          some [⟨[("created_at", [1]), ("updated_at", [2])]⟩] :=
  (write_files_to_new_table_spec (fun v : Nat => v) ⟨[]⟩
    [⟨[("created_at", [1]), ("updated_at", [2])]⟩]
    [⟨[("created_at", [1]), ("updated_at", [2])]⟩] "users" "batch1"
    (by decide) rfl).2.2

/-- Counterexample to C1 as stated: a Parquet batch file whose schema lacks a
`created_at` column makes `_write_files_to_new_table` raise `KeyError` (from
`dataframe["created_at"]`) instead of loading the file and returning the
staging table's name. -/
theorem write_files_to_new_table_missing_timestamp_cols :
    BigQuery.write_files_to_new_table (fun v : Nat => v) ⟨[]⟩
        [⟨[("id", [1])]⟩] "users" "batch1" = .error .keyError := rfl

/-- C2: if the staging table does not exist at the moment a file is about to
be loaded, the per-file body of `_write_files_to_new_table` raises
`AirbyteLibInternalError` and never reaches the `pandas_gbq.to_gbq` call, so
the load cannot implicitly create the table or append the file's records. -/
theorem load_file_to_table_missing_table {V : Type} (to_dt : V → V)
    (st : BigQuery.BigQueryState V) (table_name : String)
    (file : BigQuery.DataFrame V)
    (h : st.table_exists table_name = false) :
    BigQuery.load_file_to_table to_dt st table_name file =
      .error .airbyteLibInternalError := by
  simp [BigQuery.load_file_to_table, h]

/-- Witness for C2: loading into an empty dataset, where no staging table
exists, raises `AirbyteLibInternalError`. -/
theorem load_file_to_table_missing_table_witness :
    BigQuery.load_file_to_table (fun v : Nat => v) ⟨[]⟩ "users_batch1"
        ⟨[("created_at", [1]), ("updated_at", [2])]⟩ =
      .error .airbyteLibInternalError :=
  load_file_to_table_missing_table (fun v : Nat => v) ⟨[]⟩ "users_batch1"
    ⟨[("created_at", [1]), ("updated_at", [2])]⟩ (by decide)

/-- C3: `BigQueryConverter.to_sql_type` maps a JSON-schema property definition
to `"String"` when the generic conversion yields a `VARCHAR` type, to
`"INT64"` when it yields a `BIGINT` type, and to the generic type's class
name in every other case. -/
theorem bigquery_to_sql_type_spec {PropDef : Type}
    (base : PropDef → BigQuery.SqlType) (json_schema_property_def : PropDef) :
    ((base json_schema_property_def).isVarchar = true →
      BigQuery.BigQueryConverter.to_sql_type base json_schema_property_def = "String") ∧
    ((base json_schema_property_def).isBigint = true →
      BigQuery.BigQueryConverter.to_sql_type base json_schema_property_def = "INT64") ∧
    ((base json_schema_property_def).isVarchar = false →
      (base json_schema_property_def).isBigint = false →
      BigQuery.BigQueryConverter.to_sql_type base json_schema_property_def =
        (base json_schema_property_def).className) := by
  refine ⟨fun h => ?_, fun h => ?_, fun h1 h2 => ?_⟩ <;>
    cases hb : base json_schema_property_def <;>
    simp_all [BigQuery.BigQueryConverter.to_sql_type, BigQuery.SqlType.isVarchar,
      BigQuery.SqlType.isBigint]

/-- Witness for C3: a property definition that the generic converter maps to
`VARCHAR` comes out as the BigQuery type `"String"`. -/
theorem bigquery_to_sql_type_spec_witness :
    BigQuery.BigQueryConverter.to_sql_type
      (fun _ : Unit => BigQuery.SqlType.varchar none) () = "String" :=
  (bigquery_to_sql_type_spec (fun _ : Unit => BigQuery.SqlType.varchar none) ()).1 rfl

/-- Writing records folds `_write_record_dict` over the stream, appending one
serialized line per record. -/
theorem jsonl_write_records_append {R : Type} (dumps : R → List Nat) :
    ∀ (records : List R) (file : List Nat),
      Jsonl.write_records dumps file records =
        file ++ (records.map (fun r => dumps r ++ [Jsonl.newlineByte])).flatten := by
  intro records
  induction records with
  | nil => intro file; simp [Jsonl.write_records]
  | cons r rest ih =>
    intro file
    simp only [Jsonl.write_records, List.foldl_cons] at *
    rw [ih, Jsonl.write_record_dict]
    simp

/-- C4: `JsonlWriter._write_record_dict` appends exactly the serialized record
followed by a single newline byte, the batch file suffix is `.jsonl.gz`, and
(when the serializer emits no raw newline bytes, as a JSON serializer does
not) a batch file written this way holds one JSON line per record in write
order: its bytes are the concatenation of the serialized records, each
terminated by one newline, and it contains exactly one newline per record. -/
theorem jsonl_writer_spec {R : Type} (dumps : R → List Nat) (records : List R)
    (hnl : ∀ r ∈ records, Jsonl.newlineByte ∉ dumps r) :
    Jsonl.default_cache_file_suffix = ".jsonl.gz" ∧
    (∀ (file : List Nat) (rec : R),
      Jsonl.write_record_dict dumps file rec =
        file ++ (dumps rec ++ [Jsonl.newlineByte])) ∧
    Jsonl.write_records dumps [] records =
      (records.map (fun r => dumps r ++ [Jsonl.newlineByte])).flatten ∧
    (Jsonl.write_records dumps [] records).count Jsonl.newlineByte =
      records.length := by
  refine ⟨rfl, fun file rec => rfl, by simpa using jsonl_write_records_append dumps records [], ?_⟩
  rw [jsonl_write_records_append dumps records []]
  simp only [List.nil_append]
  induction records with
  | nil => simp
  | cons r rest ih =>
    have hr : Jsonl.newlineByte ∉ dumps r := hnl r (by simp)
    have hrest : ∀ x ∈ rest, Jsonl.newlineByte ∉ dumps x :=
      fun x hx => hnl x (by simp [hx])
    simp only [List.map_cons, List.flatten_cons, List.count_append]
    rw [ih hrest]
    have hzero : (dumps r).count Jsonl.newlineByte = 0 := List.count_eq_zero.mpr hr
    simp [hzero, List.count_cons]
    omega

/-- Witness for C4: two records serialized by a constant two-byte serializer
produce two newline-terminated lines. -/
theorem jsonl_writer_spec_witness :
    Jsonl.write_records (fun _ : Unit => [123, 125]) [] [(), ()] =
        ([[123, 125, 10], [123, 125, 10]] : List (List Nat)).flatten ∧
    (Jsonl.write_records (fun _ : Unit => [123, 125]) [] [(), ()]).count
        Jsonl.newlineByte = 2 := by
  have h := jsonl_writer_spec (fun _ : Unit => [123, 125]) [(), ()] (by decide)
  exact ⟨by simpa using h.2.2.1, by simpa using h.2.2.2⟩

/-- C5: the write strategies governing how staged records are merged into a
target table are exactly the three policies append-only, full replace and
upsert-by-primary-key, pairwise distinct, with no further alternative. -/
theorem write_strategy_exactly_three :
    (∀ s : WriteStrategy, s = .append ∨ s = .replace ∨ s = .merge) ∧
    WriteStrategy.append ≠ WriteStrategy.replace ∧
    WriteStrategy.append ≠ WriteStrategy.merge ∧
    WriteStrategy.replace ≠ WriteStrategy.merge := by
  refine ⟨fun s => ?_, by decide, by decide, by decide⟩
  cases s
  · exact Or.inl rfl
  · exact Or.inr (Or.inl rfl)
  · exact Or.inr (Or.inr rfl)

/-- Witness for C5: the upsert-by-key strategy is one of the three policies. -/
theorem write_strategy_exactly_three_witness :
    WriteStrategy.merge = WriteStrategy.append ∨
    WriteStrategy.merge = WriteStrategy.replace ∨
    WriteStrategy.merge = WriteStrategy.merge :=
  write_strategy_exactly_three.1 WriteStrategy.merge

/-- C6: each of `get_workspace`, `get_connection`, `get_source` and
`get_job_info` returns its payload exactly when the HTTP status code lies in
`[200, 300)` and the payload field is non-empty, and raises
`AirbyteMissingResourceError` in every other case. -/
theorem resource_getters_spec (rw : GetWorkspaceResponse)
    (rc : GetConnectionResponse) (rs : GetSourceResponse) (rj : GetJobResponse) :
    (∀ w, get_workspace rw = .ok w ↔
      (200 ≤ rw.status_code ∧ rw.status_code < 300) ∧ rw.workspace_response = some w) ∧
    (¬(status_ok rw.status_code = true ∧ rw.workspace_response.isSome = true) →
      get_workspace rw = .error (.missingResource "workspace")) ∧
    (∀ c, get_connection rc = .ok c ↔
      (200 ≤ rc.status_code ∧ rc.status_code < 300) ∧ rc.connection_response = some c) ∧
    (¬(status_ok rc.status_code = true ∧ rc.connection_response.isSome = true) →
      get_connection rc = .error (.missingResource "connection")) ∧
    (∀ s, get_source rs = .ok s ↔
      (200 ≤ rs.status_code ∧ rs.status_code < 300) ∧ rs.connection_response = some s) ∧
    (¬(status_ok rs.status_code = true ∧ rs.connection_response.isSome = true) →
      get_source rs = .error (.missingResource "source")) ∧
    (∀ j, get_job_info rj = .ok j ↔
      (200 ≤ rj.status_code ∧ rj.status_code < 300) ∧ rj.job_response = some j) ∧
    (¬(status_ok rj.status_code = true ∧ rj.job_response.isSome = true) →
      get_job_info rj = .error (.missingResource "job")) := by
  refine ⟨fun w => ?_, fun h => ?_, fun c => ?_, fun h => ?_,
    fun s => ?_, fun h => ?_, fun j => ?_, fun h => ?_⟩
  · cases hs : status_ok rw.status_code <;> cases ho : rw.workspace_response <;>
      simp_all [get_workspace, status_ok]
  · cases hs : status_ok rw.status_code <;> cases ho : rw.workspace_response <;>
      simp_all [get_workspace]
  · cases hs : status_ok rc.status_code <;> cases ho : rc.connection_response <;>
      simp_all [get_connection, status_ok]
  · cases hs : status_ok rc.status_code <;> cases ho : rc.connection_response <;>
      simp_all [get_connection]
  · cases hs : status_ok rs.status_code <;> cases ho : rs.connection_response <;>
      simp_all [get_source, status_ok]
  · cases hs : status_ok rs.status_code <;> cases ho : rs.connection_response <;>
      simp_all [get_source]
  · cases hs : status_ok rj.status_code <;> cases ho : rj.job_response <;>
      simp_all [get_job_info, status_ok]
  · cases hs : status_ok rj.status_code <;> cases ho : rj.job_response <;>
      simp_all [get_job_info]

/-- Witness for C6: with status 200 and a present payload, `get_workspace`
returns the payload. -/
theorem resource_getters_spec_witness :
    get_workspace ⟨200, some ⟨"w1"⟩⟩ = .ok ⟨"w1"⟩ :=
  ((resource_getters_spec ⟨200, some ⟨"w1"⟩⟩ ⟨200, some ⟨"c1", "n1"⟩⟩
      ⟨200, some ⟨"s1"⟩⟩ ⟨200, some ⟨"j1"⟩⟩).1 ⟨"w1"⟩).mpr
    ⟨⟨by decide, by decide⟩, rfl⟩

/-- C7: on an OK status, `get_destination` returns the destination response
with only its `configuration` field replaced by the typed model parsed from
the raw JSON when the destination type is snowflake, bigquery, postgres or
duckdb (every other field unchanged, as the structure-update form shows), and
returns the response entirely unchanged for any other destination type. -/
theorem get_destination_spec {RawCfg : Type} (r : GetDestinationResponse RawCfg)
    (h : status_ok r.status_code = true) :
    (r.raw_response.destinationType = some "snowflake" →
      get_destination r = .ok { r.destination_response with
        configuration := .snowflake r.raw_response.configuration }) ∧
    (r.raw_response.destinationType = some "bigquery" →
      get_destination r = .ok { r.destination_response with
        configuration := .bigquery r.raw_response.configuration }) ∧
    (r.raw_response.destinationType = some "postgres" →
      get_destination r = .ok { r.destination_response with
        configuration := .postgres r.raw_response.configuration }) ∧
    (r.raw_response.destinationType = some "duckdb" →
      get_destination r = .ok { r.destination_response with
        configuration := .duckdb r.raw_response.configuration }) ∧
    (r.raw_response.destinationType ≠ some "snowflake" →
      r.raw_response.destinationType ≠ some "bigquery" →
      r.raw_response.destinationType ≠ some "postgres" →
      r.raw_response.destinationType ≠ some "duckdb" →
      get_destination r = .ok r.destination_response) := by
  refine ⟨fun hdt => ?_, fun hdt => ?_, fun hdt => ?_, fun hdt => ?_,
    fun h1 h2 h3 h4 => ?_⟩ <;>
    simp_all [get_destination]

/-- Witness for C7: an OK snowflake response comes back with its
configuration replaced by the typed snowflake model and nothing else
changed. -/
theorem get_destination_spec_witness :
    get_destination
        (⟨200, ⟨"d1", "dest", "w1", "snowflake", .raw 0⟩, ⟨0, some "snowflake"⟩⟩ :
          GetDestinationResponse Nat) =
      .ok ⟨"d1", "dest", "w1", "snowflake", .snowflake 0⟩ :=
  (get_destination_spec
    (⟨200, ⟨"d1", "dest", "w1", "snowflake", .raw 0⟩, ⟨0, some "snowflake"⟩⟩ :
      GetDestinationResponse Nat) (by decide)).1 rfl

/-- A filter that always answers `ok true` keeps every element. -/
theorem filterRaising_all_ok {α : Type} (p : α → Except AirbyteApiError Bool)
    (hp : ∀ a, p a = .ok true) (l : List α) : filterRaising p l = .ok l := by
  induction l with
  | nil => rfl
  | cons a as ih => simp [filterRaising, hp a, ih]

/-- With a filter that always answers `ok true`, the paging loop yields the
full server list. -/
theorem list_connections_loop_all (p : String → Except AirbyteApiError Bool)
    (hp : ∀ s, p s = .ok true) :
    ∀ conns : List ConnectionResponse, list_connections_loop p conns = .ok conns := by
  suffices H : ∀ (n : Nat) (conns : List ConnectionResponse), conns.length ≤ n →
      list_connections_loop p conns = .ok conns by
    intro conns
    exact H conns.length conns le_rfl
  intro n
  induction n with
  | zero =>
    intro conns hc
    have hnil : conns = [] := List.length_eq_zero.mp (Nat.le_zero.mp hc)
    subst hnil
    rw [list_connections_loop]
    simp
  | succ n ih =>
    intro conns hc
    rw [list_connections_loop]
    by_cases hemp : conns.isEmpty
    · have hnil : conns = [] := by simpa [List.isEmpty_iff] using hemp
      subst hnil
      simp
    · have hdrop : (conns.drop 50).length ≤ n := by
        have hne : conns ≠ [] := by simpa [List.isEmpty_iff] using hemp
        have hpos : 0 < conns.length := List.length_pos.mpr hne
        simp only [List.length_drop]
        omega
      have hrw := filterRaising_all_ok (fun c : ConnectionResponse => p c.name)
        (fun c => hp c.name) (conns.take 50)
      simp [hemp, hrw, ih (conns.drop 50) hdrop]

/-- `list_connections` with `name_filter=None` yields every connection of the
workspace, across all pages. -/
theorem list_connections_nofilter (conns : List ConnectionResponse) :
    list_connections .nofilter conns = .ok conns :=
  list_connections_loop_all (applied_name_filter .nofilter) (fun _ => rfl) conns

/-- C8: `get_connection_by_name` returns the unique listed connection whose
name equals the given name, raises `AirbyteMissingResourceError` when no
connection has that exact name, and `AirbyteMultipleResourcesError` when more
than one does. -/
theorem get_connection_by_name_spec (server_connections : List ConnectionResponse)
    (connection_name : String) :
    (server_connections.filter (fun c => c.name == connection_name) = [] →
      get_connection_by_name server_connections connection_name =
        .error (.missingResource "connection")) ∧
    (∀ c, server_connections.filter (fun c => c.name == connection_name) = [c] →
      get_connection_by_name server_connections connection_name = .ok c) ∧
    (2 ≤ (server_connections.filter (fun c => c.name == connection_name)).length →
      get_connection_by_name server_connections connection_name =
        .error (.multipleResources "connection")) := by
  have hlist := list_connections_nofilter server_connections
  refine ⟨fun h0 => ?_, fun c hc => ?_, fun h2 => ?_⟩
  · simp [get_connection_by_name, hlist, h0]
  · simp [get_connection_by_name, hlist, hc]
  · cases hf : server_connections.filter (fun c => c.name == connection_name) with
    | nil => rw [hf] at h2; simp at h2
    | cons a t =>
      cases t with
      | nil => rw [hf] at h2; simp at h2
      | cons b t2 => simp [get_connection_by_name, hlist, hf]

/-- Witness for C8: with exactly one connection named `users`, the lookup
returns it. -/
theorem get_connection_by_name_spec_witness :
    get_connection_by_name [⟨"c1", "users"⟩, ⟨"c2", "orders"⟩] "users" =
      .ok ⟨"c1", "users"⟩ :=
  (get_connection_by_name_spec [⟨"c1", "users"⟩, ⟨"c2", "orders"⟩] "users").2.1
    ⟨"c1", "users"⟩ (by decide)

/-- C9, evaluated at the failing input: with the string name filter
`"users"` and a workspace holding one connection named `"users_sync"`,
`list_connections` raises `TypeError` instead of yielding the connection.
The inner `def name_filter` of the source (lines 119-123) rebinds the very
name it closes over, so the built predicate evaluates `function in str` and
`str.__contains__` rejects it.  With `name_filter=None` the same workspace
list is yielded in full, as the claim expects. -/
theorem list_connections_str_filter_bug :
    list_connections (.str "users") [⟨"c1", "users_sync"⟩] = .error .typeError ∧
    list_connections .nofilter [⟨"c1", "users_sync"⟩] =
      .ok [⟨"c1", "users_sync"⟩] := by
  constructor
  · rw [list_connections, list_connections_loop]
    simp [applied_name_filter, filterRaising]
  · exact list_connections_nofilter [⟨"c1", "users_sync"⟩]

/-- C10: against the Cloud API root, and given a check call whose HTTP layer
succeeds, `check_connector_config` returns exactly when the response JSON
status equals `succeeded` and raises `AirbyteConnectorCheckFailedError` for
every other status; against any other API root it raises
`NotImplementedError` without performing any HTTP call. -/
theorem check_connector_config_spec (connector_id connector_type api_root : String)
    (server : HttpPostRequest → HttpResponse) :
    (api_root ≠ CLOUD_API_ROOT →
      check_connector_config connector_id connector_type api_root server =
        (.error .notImplementedError, [])) ∧
    (api_root = CLOUD_API_ROOT →
      raise_for_status
          (server (check_request LEGACY_API_ROOT connector_id connector_type)).status_code
          = false →
      ((check_connector_config connector_id connector_type api_root server).1 = .ok ()
        ↔ (server (check_request LEGACY_API_ROOT connector_id connector_type)).json.status
            = some "succeeded") ∧
      ((server (check_request LEGACY_API_ROOT connector_id connector_type)).json.status
          ≠ some "succeeded" →
        (check_connector_config connector_id connector_type api_root server).1 =
          .error (.connectorCheckFailed
            (server (check_request LEGACY_API_ROOT connector_id connector_type)).json.message)) ∧
      (check_connector_config connector_id connector_type api_root server).2 =
        [check_request LEGACY_API_ROOT connector_id connector_type]) := by
  constructor
  · intro h
    have hb : (api_root == CLOUD_API_ROOT) = false := by
      simpa using h
    simp [check_connector_config, transform_legacy_api_root, hb]
  · intro h hstatus
    subst h
    have hok : transform_legacy_api_root CLOUD_API_ROOT = .ok LEGACY_API_ROOT := rfl
    refine ⟨?_, fun hne => ?_, ?_⟩ <;>
      cases hsucc : (server (check_request LEGACY_API_ROOT connector_id
          connector_type)).json.status == some "succeeded" <;>
        simp_all [check_connector_config, transform_legacy_api_root, hstatus]

/-- Witness for C10: at the Cloud API root with a succeeding check response,
the function returns without raising. -/
theorem check_connector_config_spec_witness :
    (check_connector_config "s1" "source" CLOUD_API_ROOT
        (fun _ => ⟨200, ⟨some "succeeded", none⟩⟩)).1 = .ok () :=
  ((check_connector_config_spec "s1" "source" CLOUD_API_ROOT
      (fun _ => ⟨200, ⟨some "succeeded", none⟩⟩)).2 rfl (by decide)).1.mpr rfl

end PyAirbyte
